import Mathlib

/-!
Shallow embedding of the ownership-scoped domain layer of the
`infinite_vocab` backend (Python/Flask over Firestore), covering the word,
category, word-category link, admin-student and search services together
with the data-access functions they call.  The document store is modelled
as an association list from document ids to typed documents; Firestore
`set`/`delete`/`get`/queries become list operations, and Python exceptions
become an `Except` error channel whose constructors mirror the exception
classes of `utils/exceptions.py`.  Apostrophes occurring in the source
message strings are written with the `\x27` escape.
-/

set_option autoImplicit false

namespace InfiniteVocab

/-- Error taxonomy, mirroring the exception classes in `utils/exceptions.py`.
Each constructor carries the message the source passes to the exception;
`duplicateEntry` additionally carries the optional `conflicting_id`. -/
inductive Err where
  | databaseError (msg : String)
  | notFound (msg : String)
  | forbidden (msg : String)
  | duplicateEntry (msg : String) (conflicting_id : Option String)
  | validationError (msg : String)
  | wordServiceError (msg : String)
  | categoryServiceError (msg : String)
  | adminServiceError (msg : String)
  | searchServiceError (msg : String)
  deriving Repr, DecidableEq

/-- `Err.isDuplicateEntry e` holds exactly for `DuplicateEntryError`. -/
def Err.isDuplicateEntry : Err → Bool
  | .duplicateEntry _ _ => true
  | _ => false

/-- `Err.isNotFound e` holds exactly for `NotFoundError`. -/
def Err.isNotFound : Err → Bool
  | .notFound _ => true
  | _ => false

/-! ### Python string primitives

The built-in `String.toLower`, `String.trim` and `String.startsWith` are
defined through byte-position recursion that the kernel cannot evaluate,
so the Python `str` methods are embedded directly on the character
sequence. -/

/-- Python `str.lower()`. -/
def pyLower (s : String) : String := ⟨s.data.map Char.toLower⟩

/-- Drop leading whitespace characters. -/
def dropLeadingWhitespace : List Char → List Char
  | [] => []
  | c :: l => if c.isWhitespace then dropLeadingWhitespace l else c :: l

/-- Python `str.strip()`: drop whitespace from both ends. -/
def pyStrip (s : String) : String :=
  ⟨(dropLeadingWhitespace (dropLeadingWhitespace s.data).reverse).reverse⟩

/-- Character-list version of Python `str.startswith`. -/
def charListStartsWith : List Char → List Char → Bool
  | _, [] => true
  | [], _ :: _ => false
  | c :: l, d :: pat => c == d && charListStartsWith l pat

/-- Python `str.startswith(pat)`. -/
def pyStartsWith (s pat : String) : Bool := charListStartsWith s.data pat.data

/-- A document store collection: an association list from document id to
document.  Firestore generates fresh ids on `add`; here the id is passed
in explicitly. -/
abbrev Store (α : Type) : Type := List (String × α)

namespace Store

/-- Firestore `document(k).get()`: the first entry with the given id. -/
def get {α : Type} (s : Store α) (k : String) : Option α :=
  (List.find? (fun p => p.1 == k) s).map (fun p => p.2)

/-- Firestore `document(k).set(v)` / `update`: upsert, keeping ids unique. -/
def set {α : Type} (s : Store α) (k : String) (v : α) : Store α :=
  (k, v) :: List.filter (fun p => p.1 != k) s

/-- Firestore `document(k).delete()`. -/
def del {α : Type} (s : Store α) (k : String) : Store α :=
  List.filter (fun p => p.1 != k) s

end Store

/-! ### Word documents (`words` collection, with its two subcollections) -/

/-- A description sub-entity document (subcollection `descriptions`). -/
structure DescriptionDoc where
  description_text : String
  is_initial : Bool
  user_id : String
  deriving Repr, DecidableEq

/-- An example sub-entity document (subcollection `examples`). -/
structure ExampleDoc where
  example_text : String
  is_initial : Bool
  user_id : String
  deriving Repr, DecidableEq

/-- A word document.  `word_stars = none` models a document on which the
`word_stars` field is absent (the Python code reads it with
`word_data.get("word_stars", 0)`).  The two subcollections are carried
inline, in `createdAt` order. -/
structure WordDoc where
  user_id : String
  word_text : String
  word_text_search : String
  word_stars : Option Nat
  descriptions : List DescriptionDoc
  examples : List ExampleDoc
  deriving Repr, DecidableEq

/-- The `words` collection. -/
abbrev WordsStore : Type := Store WordDoc

namespace WordDal

/-- `word_dal.get_word_by_id`: fetch a word document (with its
subcollections) or `none` when absent. -/
def get_word_by_id (db : WordsStore) (word_id : String) : Option WordDoc :=
  Store.get db word_id

/-- `word_dal.find_word_by_text_for_user`: equality query on
`user_id` and `word_text_search == word_text.lower()`, limit 1; returns
the matching document id or `none`. -/
def find_word_by_text_for_user (db : WordsStore) (user_id word_text : String) :
    Option String :=
  (List.find?
      (fun p =>
        p.2.user_id == user_id && p.2.word_text_search == pyLower word_text)
      db).map (fun p => p.1)

/-- `word_dal.update_word_by_id`: writes `word_text`,
`word_text_search = new_word_text.lower()` (and the `updatedAt` sentinel)
in one update; a Firestore update on an absent document fails, surfacing
as `DatabaseError`. -/
def update_word_by_id (db : WordsStore) (word_id new_word_text : String) :
    Except Err WordsStore :=
  match Store.get db word_id with
  | none =>
      .error (.databaseError
        ("DAL: Firestore error updating word text for ID \x27" ++ word_id ++ "\x27"))
  | some w =>
      .ok (Store.set db word_id
        { w with
          word_text := new_word_text
          word_text_search := pyLower new_word_text })

/-- `word_dal.add_word_to_db`: adds the word document under the
store-generated id `fresh_id`, backfilling `word_text_search` when missing
(our typed documents always carry it). -/
def add_word_to_db (db : WordsStore) (fresh_id : String) (doc : WordDoc) :
    WordsStore :=
  Store.set db fresh_id doc

/-- Result of `word_dal.atomic_update`: the Python function returns the
sentinel strings `"NOT_FOUND"` / `"FORBIDDEN"` or the pair
`(new_star_count, word_text)`. -/
inductive AtomicResult where
  | notFoundMark
  | forbiddenMark
  | ok (new_star_count : Nat) (word_text : String)
  deriving Repr, DecidableEq

/-- `word_dal.atomic_update`: the single-document read-modify-write
transaction.  Read the snapshot; absent → `NOT_FOUND`; owner mismatch →
`FORBIDDEN`; else `new = word_data.get("word_stars", 0) + 1` is written
back and returned together with the word text. -/
def atomic_update (db : WordsStore) (word_id user_id : String) :
    AtomicResult × WordsStore :=
  match Store.get db word_id with
  | none => (.notFoundMark, db)
  | some word_data =>
      if word_data.user_id != user_id then
        (.forbiddenMark, db)
      else
        let current_stars := word_data.word_stars.getD 0
        let new_star_count := current_stars + 1
        (.ok new_star_count word_data.word_text,
          Store.set db word_id { word_data with word_stars := some new_star_count })

end WordDal

/-! ### Word factory (`factories/word_factory.py`) -/

namespace WordFactory

/-- `WordFactory.validate_star_milestones` result dictionary. -/
structure MilestonePrompts where
  prompt_for_description : Bool
  prompt_for_example : Bool
  deriving Repr, DecidableEq

/-- `WordFactory.validate_star_milestones`: description prompts at
5, 10, 15, 20 stars; example prompts at 10, 20, 30, 40 stars. -/
def validate_star_milestones (star_count : Nat) : MilestonePrompts :=
  let description_milestones : List Nat := [5, 10, 15, 20]
  let example_milestones : List Nat := [10, 20, 30, 40]
  { prompt_for_description := description_milestones.contains star_count
    prompt_for_example := example_milestones.contains star_count }

end WordFactory

/-! ### Star service (`services/word/star_service.py`) -/

namespace StarService

/-- The success dictionary returned by `star_word_for_user`. -/
structure StarResult where
  message : String
  word_id : String
  new_star_count : Nat
  prompt_for_description : Bool
  prompt_for_example : Bool
  deriving Repr, DecidableEq

/-- `star_service.star_word_for_user`: run the `atomic_update`
transaction; translate the `NOT_FOUND` / `FORBIDDEN` sentinels into
`NotFoundError` / `ForbiddenError`; on success evaluate milestones on the
new count and return the response dictionary together with the updated
store. -/
def star_word_for_user (db : WordsStore) (user_id word_id : String) :
    Except Err (StarResult × WordsStore) :=
  match WordDal.atomic_update db word_id user_id with
  | (.notFoundMark, _) =>
      .error (.notFound ("Word with ID \x27" ++ word_id ++ "\x27 not found."))
  | (.forbiddenMark, _) =>
      .error (.forbidden "You are not authorized to modify this word.")
  | (.ok new_star_count word_text, db2) =>
      let milestone_prompts := WordFactory.validate_star_milestones new_star_count
      .ok
        ({ message := "Successfully starred word \x27" ++ word_text ++ "\x27."
           word_id := word_id
           new_star_count := new_star_count
           prompt_for_description := milestone_prompts.prompt_for_description
           prompt_for_example := milestone_prompts.prompt_for_example },
         db2)

end StarService

/-! ### Word service (`services/word/word_service.py`) -/

/-- `schemas.WordCreateSchema` (validated input for word creation). -/
structure WordCreateSchema where
  word_text : String
  description_text : String
  example_text : String
  deriving Repr, DecidableEq

namespace WordFactory

/-- `WordFactory.create_from_schema`: new words preserve the original
capitalization in `word_text`, store `word_text.lower()` in
`word_text_search`, and start with 0 stars. -/
def create_from_schema (schema : WordCreateSchema) (user_id : String) : WordDoc :=
  { word_text := schema.word_text
    word_text_search := pyLower schema.word_text
    word_stars := some 0
    user_id := user_id
    descriptions := []
    examples := [] }

/-- `WordFactory.create_description_from_schema`. -/
def create_description_from_schema (description_text user_id : String)
    (is_initial : Bool) : DescriptionDoc :=
  { description_text := description_text, is_initial := is_initial, user_id := user_id }

/-- `WordFactory.create_example_from_schema`. -/
def create_example_from_schema (example_text user_id : String)
    (is_initial : Bool) : ExampleDoc :=
  { example_text := example_text, is_initial := is_initial, user_id := user_id }

end WordFactory

namespace WordDal

/-- `word_dal.append_description_to_word_db`: add to the word's
`descriptions` subcollection (no-op when the word document is absent,
as Firestore happily writes into a subcollection of a missing parent;
here creation always appends to an existing word). -/
def append_description_to_word_db (db : WordsStore) (word_id : String)
    (d : DescriptionDoc) : WordsStore :=
  match Store.get db word_id with
  | none => db
  | some w => Store.set db word_id { w with descriptions := w.descriptions ++ [d] }

/-- `word_dal.append_example_to_word_db`. -/
def append_example_to_word_db (db : WordsStore) (word_id : String)
    (e : ExampleDoc) : WordsStore :=
  match Store.get db word_id with
  | none => db
  | some w => Store.set db word_id { w with examples := w.examples ++ [e] }

end WordDal

namespace WordService

/-- `word_service.get_word_details_for_user`: fetch by id; absent or
owner mismatch both raise `NotFoundError` with the identical message. -/
def get_word_details_for_user (db : WordsStore) (user_id word_id : String) :
    Except Err WordDoc :=
  match WordDal.get_word_by_id db word_id with
  | none => .error (.notFound ("Word with ID \x27" ++ word_id ++ "\x27 not found."))
  | some word =>
      if word.user_id != user_id then
        .error (.notFound ("Word with ID \x27" ++ word_id ++ "\x27 not found."))
      else
        .ok word

/-- `word_service.create_word_for_user`: duplicate check via the
case-insensitive `find_word_by_text_for_user` lookup (→
`DuplicateEntryError` carrying the conflicting id); otherwise create the
main word document from the factory model under the generated `fresh_id`,
then append the initial description and example sub-entities
(`is_initial = true`).  Returns the created word id with the new store. -/
def create_word_for_user (db : WordsStore) (user_id : String)
    (schema : WordCreateSchema) (fresh_id : String) :
    Except Err (String × WordsStore) :=
  match WordDal.find_word_by_text_for_user db user_id schema.word_text with
  | some existing_word_id =>
      .error (.duplicateEntry
        ("Word \x27" ++ schema.word_text ++
          "\x27 already exists in your list. Try adding a star to the existing entry instead?")
        (some existing_word_id))
  | none =>
      let word_model := WordFactory.create_from_schema schema user_id
      let db1 := WordDal.add_word_to_db db fresh_id word_model
      let initial_desc :=
        WordFactory.create_description_from_schema schema.description_text user_id true
      let db2 := WordDal.append_description_to_word_db db1 fresh_id initial_desc
      let initial_example :=
        WordFactory.create_example_from_schema schema.example_text user_id true
      let db3 := WordDal.append_example_to_word_db db2 fresh_id initial_example
      .ok (fresh_id, db3)

/-- `word_service.update_word_for_user`: ownership gate via
`get_word_details_for_user`, then `update_word_by_id` writes the new text
and its recomputed search key. -/
def update_word_for_user (db : WordsStore) (user_id word_id new_word_text : String) :
    Except Err WordsStore :=
  match get_word_details_for_user db user_id word_id with
  | .error e => .error e
  | .ok _ => WordDal.update_word_by_id db word_id new_word_text

end WordService

/-! ### Category documents, factory and service -/

/-- A category document (`categories` collection). -/
structure CategoryDoc where
  user_id : String
  category_name : String
  category_name_search : String
  category_color : String
  deriving Repr, DecidableEq

/-- The `categories` collection. -/
abbrev CatStore : Type := Store CategoryDoc

/-- `schemas.CategoryCreateSchema`. -/
structure CategoryCreateSchema where
  category_name : String
  category_color : String
  deriving Repr, DecidableEq

/-- `schemas.CategoryUpdateSchema` (both fields optional). -/
structure CategoryUpdateSchema where
  category_name : Option String
  category_color : Option String
  deriving Repr, DecidableEq

namespace CategoryFactory

/-- `CategoryFactory._normalize_category_name`: trim whitespace. -/
def normalize_category_name (name : String) : String := pyStrip name

/-- `CategoryFactory._validate_color_format`: after trimming, the color
must start with `#` (compared on the lowercased string) and have length
exactly 7, else `ValidationError`. -/
def validate_color_format (color : String) : Except Err String :=
  let c := pyStrip color
  if !(pyStartsWith (pyLower c) "#") || c.length != 7 then
    .error (.validationError
      "Color must be a valid hex color starting with # (e.g., #FF5733)")
  else
    .ok c

/-- `CategoryFactory.create_from_schema`: normalized name, lowercase
search key, validated color. -/
def create_from_schema (schema : CategoryCreateSchema) (user_id : String) :
    Except Err CategoryDoc :=
  match validate_color_format schema.category_color with
  | .error e => .error e
  | .ok validated_color =>
      let normalized_name := normalize_category_name schema.category_name
      .ok
        { category_name := normalized_name
          category_name_search := pyLower normalized_name
          category_color := validated_color
          user_id := user_id }

/-- `CategoryFactory.create_update_dict`: the update written to the
store, as the pair of optional (name, search) and optional color; when the
name is present the recomputed lowercase search key is part of the same
update dictionary. -/
def create_update_dict (schema : CategoryUpdateSchema) :
    Except Err (Option (String × String) × Option String) :=
  let name_part :=
    match schema.category_name with
    | none => none
    | some n =>
        let normalized := normalize_category_name n
        some (normalized, pyLower normalized)
  match schema.category_color with
  | none => .ok (name_part, none)
  | some c =>
      match validate_color_format c with
      | .error e => .error e
      | .ok validated => .ok (name_part, some validated)

end CategoryFactory

namespace CategoryDal

/-- `category_dal.get_categories_by_user`: all of the user's categories,
each paired with its document id (the source sets `category_id` from
`doc.id` on the returned models; it also orders by `category_name`, an
ordering irrelevant to the duplicate scans that consume this list). -/
def get_categories_by_user (db : CatStore) (user_id : String) :
    List (String × CategoryDoc) :=
  List.filter (fun p => p.2.user_id == user_id) db

/-- `category_dal.get_category_by_id`. -/
def get_category_by_id (db : CatStore) (category_id : String) : Option CategoryDoc :=
  Store.get db category_id

/-- `category_dal.create_category`: add under the generated id. -/
def create_category (db : CatStore) (fresh_id : String) (c : CategoryDoc) : CatStore :=
  Store.set db fresh_id c

/-- `category_dal.update_category`: `none` when the document is absent;
otherwise apply the update dictionary fields that are present. -/
def update_category (db : CatStore) (category_id : String)
    (updates : Option (String × String) × Option String) :
    Option (CategoryDoc × CatStore) :=
  match Store.get db category_id with
  | none => none
  | some c =>
      let c1 :=
        match updates.1 with
        | none => c
        | some (n, s) => { c with category_name := n, category_name_search := s }
      let c2 :=
        match updates.2 with
        | none => c1
        | some col => { c1 with category_color := col }
      some (c2, Store.set db category_id c2)

end CategoryDal

namespace CategoryService

/-- The `try:` body of `category_service.create_category`: scan the
user's categories for a case-insensitive name match against
`schema.category_name.strip().lower()` and raise `CategoryServiceError`
on a hit; otherwise build the document through the factory and persist it. -/
def create_category_inner (db : CatStore) (user_id : String)
    (schema : CategoryCreateSchema) (fresh_id : String) :
    Except Err (CategoryDoc × CatStore) :=
  let existing_categories := CategoryDal.get_categories_by_user db user_id
  let normalized_name := pyLower (pyStrip schema.category_name)
  if existing_categories.any
      (fun existing_category => pyLower existing_category.2.category_name == normalized_name) then
    .error (.categoryServiceError
      ("Category \x27" ++ schema.category_name ++ "\x27 already exists for this user."))
  else
    match CategoryFactory.create_from_schema schema user_id with
    | .error e => .error e
    | .ok partial_category =>
        .ok (partial_category, CategoryDal.create_category db fresh_id partial_category)

/-- The `except` clauses of `category_service.create_category`:
`DatabaseError` is wrapped with the could-not-create message; every other
exception — including the `CategoryServiceError` raised for the duplicate
and any factory `ValidationError` — is caught by the blanket
`except Exception` and re-raised as the generic `CategoryServiceError`. -/
def create_category (db : CatStore) (user_id : String)
    (schema : CategoryCreateSchema) (fresh_id : String) :
    Except Err (CategoryDoc × CatStore) :=
  match create_category_inner db user_id schema fresh_id with
  | .ok r => .ok r
  | .error (.databaseError _) =>
      .error (.categoryServiceError
        ("Could not create category \x27" ++ schema.category_name ++
          "\x27 due to a database issue."))
  | .error _ =>
      .error (.categoryServiceError
        "An unexpected error occurred while creating the category.")

/-- The `try:` body of `category_service.get_category_by_id`: absent and
owner-mismatch both raise `NotFoundError` with the identical message. -/
def get_category_by_id_inner (db : CatStore) (category_id user_id : String) :
    Except Err CategoryDoc :=
  match CategoryDal.get_category_by_id db category_id with
  | none =>
      .error (.notFound ("Category with ID \x27" ++ category_id ++ "\x27 not found."))
  | some category =>
      if category.user_id != user_id then
        .error (.notFound ("Category with ID \x27" ++ category_id ++ "\x27 not found."))
      else
        .ok category

/-- The `except` clauses of `category_service.get_category_by_id`: the
function has no re-raise clause for `NotFoundError`, so its own blanket
`except Exception` converts the `NotFoundError` raised in the `try:` body
into the generic `CategoryServiceError`. -/
def get_category_by_id (db : CatStore) (category_id user_id : String) :
    Except Err CategoryDoc :=
  match get_category_by_id_inner db category_id user_id with
  | .ok c => .ok c
  | .error (.databaseError _) =>
      .error (.categoryServiceError
        "Could not retrieve category due to a database issue.")
  | .error _ =>
      .error (.categoryServiceError
        "An unexpected error occurred while retrieving the category.")

/-- `category_service.update_category`: ownership gate (through the
service `get_category_by_id`, whose wrapped errors propagate), factory
update dictionary, duplicate scan when the name changes
(case-insensitively), then the DAL update which writes name and search
key in the same update. -/
def update_category (db : CatStore) (category_id user_id : String)
    (schema : CategoryUpdateSchema) : Except Err (CategoryDoc × CatStore) :=
  match get_category_by_id db category_id user_id with
  | .error e => .error e
  | .ok existing_category =>
      match CategoryFactory.create_update_dict schema with
      | .error e => .error e
      | .ok updates =>
          if updates.1.isNone && updates.2.isNone then
            .ok (existing_category, db)
          else
            let dup :=
              match updates.1 with
              | none => false
              | some (n, _) =>
                  let new_name := pyLower n
                  let current_name := pyLower existing_category.category_name
                  if new_name != current_name then
                    (CategoryDal.get_categories_by_user db user_id).any
                      (fun category =>
                        category.1 != category_id &&
                          pyLower category.2.category_name == new_name)
                  else
                    false
            if dup then
              .error (.categoryServiceError
                ("Category \x27" ++
                  (match updates.1 with | some (n, _) => n | none => "") ++
                  "\x27 already exists for this user."))
            else
              match CategoryDal.update_category db category_id updates with
              | none =>
                  .error (.notFound
                    ("Category with ID \x27" ++ category_id ++ "\x27 not found."))
              | some (updated, db2) => .ok (updated, db2)

end CategoryService

/-! ### Word-category links (`word_categories` collection) -/

/-- A word-category link document; its document id is the deterministic
composite `"{word_id}_{category_id}"`. -/
structure LinkDoc where
  word_id : String
  category_id : String
  user_id : String
  deriving Repr, DecidableEq

/-- The `word_categories` collection. -/
abbrev LinkStore : Type := Store LinkDoc

namespace WordCategoryDal

/-- `word_category_dal.link_word_to_category`: `set` under the composite
id `f"{word_id}_{category_id}"`. -/
def link_word_to_category (links : LinkStore) (user_id word_id category_id : String) :
    LinkStore :=
  let link_id := word_id ++ "_" ++ category_id
  Store.set links link_id
    { word_id := word_id, category_id := category_id, user_id := user_id }

/-- `word_category_dal.unlink_word_from_category`: delete the composite-id
document. -/
def unlink_word_from_category (links : LinkStore) (word_id category_id : String) :
    LinkStore :=
  Store.del links (word_id ++ "_" ++ category_id)

/-- `word_category_dal.check_link_exists`: direct fetch of the
composite-id document. -/
def check_link_exists (links : LinkStore) (word_id category_id : String) : Bool :=
  (Store.get links (word_id ++ "_" ++ category_id)).isSome

end WordCategoryDal

/-- Joint state for the word-category service: the three collections it
touches. -/
structure AppDb where
  words : WordsStore
  categories : CatStore
  word_categories : LinkStore

namespace WordCategoryService

/-- `word_category_service.add_word_to_category`: two independent
ownership checks (word, then category), each collapsing absence and
ownership mismatch into the same `NotFoundError`; then composite-id link
existence check (→ `DuplicateEntryError`); then link creation. -/
def add_word_to_category (db : AppDb) (user_id category_id word_id : String) :
    Except Err AppDb :=
  match WordDal.get_word_by_id db.words word_id with
  | none => .error (.notFound "Word not found or access is forbidden.")
  | some word_model =>
      if word_model.user_id != user_id then
        .error (.notFound "Word not found or access is forbidden.")
      else
        match CategoryDal.get_category_by_id db.categories category_id with
        | none => .error (.notFound "Category not found or access is forbidden.")
        | some category =>
            if category.user_id != user_id then
              .error (.notFound "Category not found or access is forbidden.")
            else if WordCategoryDal.check_link_exists db.word_categories word_id category_id then
              .error (.duplicateEntry "Word is already in this category." none)
            else
              .ok { db with
                word_categories :=
                  WordCategoryDal.link_word_to_category db.word_categories
                    user_id word_id category_id }

/-- `word_category_service.remove_word_from_category`: the same two
ownership gates; an absent link raises `NotFoundError`; otherwise the
composite-id document is deleted. -/
def remove_word_from_category (db : AppDb) (user_id category_id word_id : String) :
    Except Err AppDb :=
  match WordDal.get_word_by_id db.words word_id with
  | none => .error (.notFound "Word not found or access is forbidden.")
  | some word_model =>
      if word_model.user_id != user_id then
        .error (.notFound "Word not found or access is forbidden.")
      else
        match CategoryDal.get_category_by_id db.categories category_id with
        | none => .error (.notFound "Category not found or access is forbidden.")
        | some category =>
            if category.user_id != user_id then
              .error (.notFound "Category not found or access is forbidden.")
            else if !(WordCategoryDal.check_link_exists db.word_categories word_id category_id) then
              .error (.notFound "This word is not in the specified category.")
            else
              .ok { db with
                word_categories :=
                  WordCategoryDal.unlink_word_from_category db.word_categories
                    word_id category_id }

end WordCategoryService

/-! ### Admin-student assignment (`services/admin_service.py`,
`data_access/admin_student_dal.py`) -/

/-- A user document, as consumed by the admin service (`user_dal`
returns full models; only id and display name are read here). -/
structure UserRec where
  user_id : String
  user_name : String
  deriving Repr, DecidableEq

/-- An `admin_student_relations` document; its id is the composite
`"{admin_id}_{student_id}"`. -/
structure ALink where
  admin_id : String
  student_id : String
  deriving Repr, DecidableEq

/-- State read and written by the student-assignment operations: the
users collection, the set of admin ids (`admin_dal.get_all_admin_ids`),
and the `admin_student_relations` collection. -/
structure AdminState where
  users : List UserRec
  adminIds : List String
  links : Store ALink
  deriving Repr, DecidableEq

namespace AdminStudentDal

/-- `user_dal.get_user_by_id` (as used by the admin service). -/
def get_user_by_id (users : List UserRec) (user_id : String) : Option UserRec :=
  List.find? (fun u => u.user_id == user_id) users

/-- `admin_student_dal.get_link_by_student_id`: equality query on
`student_id`, limit 1. -/
def get_link_by_student_id (links : Store ALink) (student_id : String) :
    Option ALink :=
  (List.find? (fun p => p.2.student_id == student_id) links).map (fun p => p.2)

/-- `admin_student_dal.create_link`: `set` under the composite id
`f"{admin_id}_{student_id}"`. -/
def create_link (links : Store ALink) (admin_id student_id : String) : Store ALink :=
  Store.set links (admin_id ++ "_" ++ student_id)
    { admin_id := admin_id, student_id := student_id }

/-- `admin_student_dal.remove_link`: delete the composite-id document if
it exists (returning `False` — here, the unchanged store — otherwise). -/
def remove_link (links : Store ALink) (admin_id student_id : String) : Store ALink :=
  let link_id := admin_id ++ "_" ++ student_id
  if (Store.get links link_id).isSome then Store.del links link_id else links

end AdminStudentDal

namespace AdminService

/-- `admin_service.assign_student_to_admin`: Rule 1 — the student must
exist as a user (`NotFoundError`); Rule 2 — the student must not be an
admin (`DuplicateEntryError`); Rule 3 — the student must not already
carry any admin-student link, with the "already assigned to you" message
when the existing link points at this admin and the "already assigned to
another admin" message otherwise.  Only then is the link created. -/
def assign_student_to_admin (st : AdminState) (admin_id student_id_to_assign : String) :
    Except Err AdminState :=
  match AdminStudentDal.get_user_by_id st.users student_id_to_assign with
  | none =>
      .error (.notFound
        ("User with ID \x27" ++ student_id_to_assign ++ "\x27 does not exist."))
  | some student =>
      if st.adminIds.contains student_id_to_assign then
        .error (.duplicateEntry "Cannot assign an admin as a student." none)
      else
        match AdminStudentDal.get_link_by_student_id st.links student_id_to_assign with
        | some existing_link =>
            if existing_link.admin_id == admin_id then
              .error (.duplicateEntry
                ("User \x27" ++ student.user_name ++ "\x27 is already assigned to you.")
                none)
            else
              .error (.duplicateEntry
                ("User \x27" ++ student.user_name ++
                  "\x27 is already assigned to another admin.")
                none)
        | none =>
            .ok { st with
              links := AdminStudentDal.create_link st.links admin_id student_id_to_assign }

/-- `admin_service.remove_student_from_admin`: the existing link (looked
up by student id) must belong to exactly this admin, else
`NotFoundError`; then the composite-id document is removed. -/
def remove_student_from_admin (st : AdminState) (admin_id student_id_to_remove : String) :
    Except Err AdminState :=
  match AdminStudentDal.get_link_by_student_id st.links student_id_to_remove with
  | none => .error (.notFound "This student is not assigned to you.")
  | some existing_link =>
      if existing_link.admin_id != admin_id then
        .error (.notFound "This student is not assigned to you.")
      else
        .ok { st with
          links := AdminStudentDal.remove_link st.links admin_id student_id_to_remove }

/-- One student-assignment operation, for reasoning about operation
sequences. -/
inductive AdminOp where
  | assign (admin_id student_id : String)
  | remove (admin_id student_id : String)
  deriving Repr, DecidableEq

/-- Apply one operation; a failed operation leaves the state unchanged
(the service raises before any write). -/
def applyOp (st : AdminState) (op : AdminOp) : AdminState :=
  match op with
  | .assign a s =>
      match assign_student_to_admin st a s with
      | .ok st2 => st2
      | .error _ => st
  | .remove a s =>
      match remove_student_from_admin st a s with
      | .ok st2 => st2
      | .error _ => st

/-- Run a sequence of assign/remove operations. -/
def runOps (st : AdminState) (ops : List AdminOp) : AdminState :=
  ops.foldl applyOp st

/-- Number of link documents naming a given student. -/
def studentLinkCount (links : Store ALink) (s : String) : Nat :=
  (List.filter (fun p => p.2.student_id == s) links).length

/-- The exclusivity invariant: every student id appears in at most one
admin-student link. -/
def StudentExclusive (st : AdminState) : Prop :=
  ∀ s, studentLinkCount st.links s ≤ 1

/-- Storage-layout well-formedness: every link document sits under its
deterministic composite id.  All links written by `create_link` have this
shape. -/
def WFLinks (st : AdminState) : Prop :=
  ∀ p ∈ st.links, p.1 = p.2.admin_id ++ "_" ++ p.2.student_id

end AdminService

/-! ### Search (`routes/search_routes.py`, `services/search_service.py`,
`data_access/search_dal.py`) -/

/-- A record of one range query issued to the document store, naming the
collection and the bounds put on the search-key field. -/
structure QueryRecord where
  collection : String
  user_id : String
  lower : String
  upper : String
  deriving Repr, DecidableEq

namespace SearchDal

/-- Insertion of one element into a list sorted by a string key. -/
def insertByKey {α : Type} (key : α → String) (a : α) : List α → List α
  | [] => [a]
  | b :: l => if key a ≤ key b then a :: b :: l else b :: insertByKey key a l

/-- Sort by a string key (the store's `order_by` on the search field). -/
def sortByKey {α : Type} (key : α → String) : List α → List α
  | [] => []
  | a :: l => insertByKey key a (sortByKey key l)

/-- `search_dal.search_words_by_name`: one range query on
`word_text_search` between `query.lower()` and
`query.lower() + ""`, filtered to the user and ordered by the
search key.  Returns the matching documents together with the query
record it issued. -/
def search_words_by_name (db : WordsStore) (user_id q : String) :
    List (String × WordDoc) × List QueryRecord :=
  let query_lower := pyLower q
  let results :=
    sortByKey (fun p => p.2.word_text_search)
      (List.filter
        (fun p =>
          p.2.user_id == user_id &&
          query_lower ≤ p.2.word_text_search &&
          p.2.word_text_search ≤ query_lower ++ "")
        db)
  (results,
    [{ collection := "words", user_id := user_id,
       lower := query_lower, upper := query_lower ++ "" }])

/-- `search_dal.search_categories_by_name`: the same range query on
`category_name_search` over the `categories` collection. -/
def search_categories_by_name (db : CatStore) (user_id q : String) :
    List (String × CategoryDoc) × List QueryRecord :=
  let query_lower := pyLower q
  let results :=
    sortByKey (fun p => p.2.category_name_search)
      (List.filter
        (fun p =>
          p.2.user_id == user_id &&
          query_lower ≤ p.2.category_name_search &&
          p.2.category_name_search ≤ query_lower ++ "")
        db)
  (results,
    [{ collection := "categories", user_id := user_id,
       lower := query_lower, upper := query_lower ++ "" }])

end SearchDal

namespace SearchService

/-- The structured search response (`SearchResults` model), plus the log
of store queries the request issued. -/
structure SearchResponse where
  words : List (String × WordDoc)
  categories : List (String × CategoryDoc)
  queries : List QueryRecord
  deriving Repr, DecidableEq

/-- `search_service.find_words_and_categories`: query both collections
and package the two independent result lists. -/
def find_words_and_categories (words : WordsStore) (categories : CatStore)
    (user_id q : String) : SearchResponse :=
  let (word_docs, wq) := SearchDal.search_words_by_name words user_id q
  let (category_docs, cq) := SearchDal.search_categories_by_name categories user_id q
  { words := word_docs, categories := category_docs, queries := wq ++ cq }

/-- `search_routes.search_route`: strip the raw `q` parameter; an empty
query returns `{"words": [], "categories": []}` immediately, before the
service (and hence the store) is ever touched; otherwise delegate to
`find_words_and_categories`. -/
def search_route (words : WordsStore) (categories : CatStore)
    (user_id raw_q : String) : SearchResponse :=
  let query := pyStrip raw_q
  if query == "" then
    { words := [], categories := [], queries := [] }
  else
    find_words_and_categories words categories user_id query

end SearchService

/-! ### Store lemmas -/

namespace Store

theorem get_set_self {α : Type} (s : Store α) (k : String) (v : α) :
    Store.get (Store.set s k v) k = some v := by
  unfold Store.get Store.set
  rw [List.find?_cons_of_pos]
  · rfl
  · simp

theorem mem_set {α : Type} {s : Store α} {k : String} {v : α} {p : String × α}
    (h : p ∈ Store.set s k v) : p = (k, v) ∨ p ∈ s := by
  unfold Store.set at h
  rcases List.mem_cons.mp h with h | h
  · exact Or.inl h
  · exact Or.inr (List.mem_of_mem_filter h)

theorem get_eq_some_mem {α : Type} {s : Store α} {k : String} {v : α}
    (h : Store.get s k = some v) : (k, v) ∈ s := by
  unfold Store.get at h
  rcases Option.map_eq_some'.mp h with ⟨p, hfind, hv⟩
  have hmem := List.mem_of_find?_eq_some hfind
  have hkey : p.1 = k := by
    have := List.find?_some hfind
    simpa using this
  rcases p with ⟨k', v'⟩
  simp only at hkey hv
  rw [hkey, hv] at hmem
  exact hmem

theorem get_isSome_of_mem {α : Type} {s : Store α} {p : String × α}
    (h : p ∈ s) : (Store.get s p.1).isSome = true := by
  unfold Store.get
  cases hf : List.find? (fun q => q.1 == p.1) s with
  | none =>
      exfalso
      rw [List.find?_eq_none] at hf
      exact hf p h (by simp)
  | some q => rfl

end Store

/-! ### Auxiliary list facts -/

theorem list_length_le_one_mem_eq {α : Type} {l : List α} (h : l.length ≤ 1)
    {a b : α} (ha : a ∈ l) (hb : b ∈ l) : a = b := by
  match l, h with
  | [], _ => cases ha
  | [x], _ => simp_all

/-! ## Claims -/

/-- C8: Milestone evaluation is a pure function of the new star count:
the description prompt is true exactly when the count is in
{5, 10, 15, 20} and the example prompt is true exactly when the count is
in {10, 20, 30, 40}; reaching 10 returns both prompts true, reaching 5
only the description prompt, and reaching 11 both false. -/
theorem milestone_evaluation_characterized :
    (∀ n : Nat,
        (WordFactory.validate_star_milestones n).prompt_for_description = true ↔
          (n = 5 ∨ n = 10 ∨ n = 15 ∨ n = 20)) ∧
    (∀ n : Nat,
        (WordFactory.validate_star_milestones n).prompt_for_example = true ↔
          (n = 10 ∨ n = 20 ∨ n = 30 ∨ n = 40)) ∧
    WordFactory.validate_star_milestones 10 =
      { prompt_for_description := true, prompt_for_example := true } ∧
    WordFactory.validate_star_milestones 5 =
      { prompt_for_description := true, prompt_for_example := false } ∧
    WordFactory.validate_star_milestones 11 =
      { prompt_for_description := false, prompt_for_example := false } := by
  refine ⟨?_, ?_, by decide, by decide, by decide⟩ <;>
    intro n <;> simp [WordFactory.validate_star_milestones, List.contains]

/-- C1: `star(ownerId, wordId)` as a single-document read-modify-write
transaction: an absent word document fails with `NotFound`; an existing
word with a different owner fails with `Forbidden`; otherwise the star
count is incremented by exactly one, the transaction writes the new count
back, and the count returned to the caller equals the count stored in the
word document afterwards. -/
theorem star_transaction_correct (db : WordsStore) (user_id word_id : String) :
    (Store.get db word_id = none →
        StarService.star_word_for_user db user_id word_id =
          .error (.notFound ("Word with ID \x27" ++ word_id ++ "\x27 not found."))) ∧
    (∀ w : WordDoc, Store.get db word_id = some w → w.user_id ≠ user_id →
        StarService.star_word_for_user db user_id word_id =
          .error (.forbidden "You are not authorized to modify this word.")) ∧
    (∀ (w : WordDoc) (n : Nat), Store.get db word_id = some w →
        w.user_id = user_id → w.word_stars = some n →
        StarService.star_word_for_user db user_id word_id =
          .ok
            ({ message := "Successfully starred word \x27" ++ w.word_text ++ "\x27."
               word_id := word_id
               new_star_count := n + 1
               prompt_for_description :=
                 (WordFactory.validate_star_milestones (n + 1)).prompt_for_description
               prompt_for_example :=
                 (WordFactory.validate_star_milestones (n + 1)).prompt_for_example },
             Store.set db word_id { w with word_stars := some (n + 1) }) ∧
        Store.get (Store.set db word_id { w with word_stars := some (n + 1) }) word_id =
          some { w with word_stars := some (n + 1) }) := by
  refine ⟨?_, ?_, ?_⟩
  · intro hnone
    unfold StarService.star_word_for_user WordDal.atomic_update
    rw [hnone]
  · intro w hget howner
    unfold StarService.star_word_for_user WordDal.atomic_update
    rw [hget]
    simp [bne_iff_ne, howner]
  · intro w n hget howner hstars
    constructor
    · unfold StarService.star_word_for_user WordDal.atomic_update
      rw [hget]
      simp [howner, hstars]
    · exact Store.get_set_self db word_id _

/-- C1 witness: a concrete word owned by the caller with 4 stars is
starred to 5, and the stored count matches the returned count. -/
theorem star_transaction_correct_witness :
    StarService.star_word_for_user
        [("w1", { user_id := "u1", word_text := "cat", word_text_search := "cat",
                  word_stars := some 4, descriptions := [], examples := [] })]
        "u1" "w1" =
      .ok
        ({ message := "Successfully starred word \x27cat\x27."
           word_id := "w1"
           new_star_count := 5
           prompt_for_description := true
           prompt_for_example := false },
         [("w1", { user_id := "u1", word_text := "cat", word_text_search := "cat",
                   word_stars := some 5, descriptions := [], examples := [] })]) := by
  have h :=
    (star_transaction_correct
        [("w1", { user_id := "u1", word_text := "cat", word_text_search := "cat",
                  word_stars := some 4, descriptions := [], examples := [] })]
        "u1" "w1").2.2
      { user_id := "u1", word_text := "cat", word_text_search := "cat",
        word_stars := some 4, descriptions := [], examples := [] }
      4 rfl rfl rfl
  exact h.1.trans rfl

/-- C10 (implicit): when the word document exists and is owned by the
caller but carries no `word_stars` field at all, the transaction treats
the missing count as 0, so starring succeeds and both the returned and
the stored new count are exactly 1. -/
theorem star_missing_count_treated_as_zero (db : WordsStore)
    (user_id word_id : String) (w : WordDoc)
    (hget : Store.get db word_id = some w)
    (howner : w.user_id = user_id)
    (hstars : w.word_stars = none) :
    StarService.star_word_for_user db user_id word_id =
      .ok
        ({ message := "Successfully starred word \x27" ++ w.word_text ++ "\x27."
           word_id := word_id
           new_star_count := 1
           prompt_for_description := false
           prompt_for_example := false },
         Store.set db word_id { w with word_stars := some 1 }) ∧
    Store.get (Store.set db word_id { w with word_stars := some 1 }) word_id =
      some { w with word_stars := some 1 } := by
  constructor
  · unfold StarService.star_word_for_user WordDal.atomic_update
    rw [hget]
    simp [howner, hstars, WordFactory.validate_star_milestones]
  · exact Store.get_set_self db word_id _

/-- C10 witness: a concrete owned word without a `word_stars` field stars
to exactly 1. -/
theorem star_missing_count_treated_as_zero_witness :
    StarService.star_word_for_user
        [("w1", { user_id := "u1", word_text := "cat", word_text_search := "cat",
                  word_stars := none, descriptions := [], examples := [] })]
        "u1" "w1" =
      .ok
        ({ message := "Successfully starred word \x27cat\x27."
           word_id := "w1"
           new_star_count := 1
           prompt_for_description := false
           prompt_for_example := false },
         [("w1", { user_id := "u1", word_text := "cat", word_text_search := "cat",
                   word_stars := some 1, descriptions := [], examples := [] })]) := by
  have h :=
    (star_missing_count_treated_as_zero
        [("w1", { user_id := "u1", word_text := "cat", word_text_search := "cat",
                  word_stars := none, descriptions := [], examples := [] })]
        "u1" "w1"
        { user_id := "u1", word_text := "cat", word_text_search := "cat",
          word_stars := none, descriptions := [], examples := [] }
        rfl rfl rfl).1
  exact h.trans rfl

/-- C9: a search whose query is empty (after stripping whitespace, as the
route does) returns empty word and category result lists and issues no
query at all to the document store. -/
theorem empty_search_query_short_circuits (words : WordsStore) (categories : CatStore)
    (user_id raw_q : String) (h : pyStrip raw_q = "") :
    SearchService.search_route words categories user_id raw_q =
      { words := [], categories := [], queries := [] } := by
  unfold SearchService.search_route
  rw [h]
  rfl

/-- C9 witness: a whitespace-only query over non-empty stores returns
empty results and an empty store-query log. -/
theorem empty_search_query_short_circuits_witness :
    SearchService.search_route
        [("w1", { user_id := "u1", word_text := "cat", word_text_search := "cat",
                  word_stars := some 0, descriptions := [], examples := [] })]
        [("c1", { user_id := "u1", category_name := "Science",
                  category_name_search := "science", category_color := "#FF5733" })]
        "u1" "  " =
      { words := [], categories := [], queries := [] } :=
  empty_search_query_short_circuits _ _ "u1" "  " (by decide)

/-- C3: `create(ownerId, text, ...)` fails with `DuplicateEntry` carrying
the conflicting word id whenever a word whose lowercase text equals
`lowercase(text)` already exists for that owner, and the same text
succeeds for an owner who has no such word. -/
theorem word_create_duplicate_rule (db : WordsStore) (user_id user2 : String)
    (schema : WordCreateSchema) (fresh_id : String) :
    (∀ (cid : String) (w : WordDoc), (cid, w) ∈ db → w.user_id = user_id →
        w.word_text_search = pyLower schema.word_text →
        ∃ (conflict_id : String) (conflict : WordDoc),
          WordService.create_word_for_user db user_id schema fresh_id =
            .error (.duplicateEntry
              ("Word \x27" ++ schema.word_text ++
                "\x27 already exists in your list. Try adding a star to the existing entry instead?")
              (some conflict_id)) ∧
          (conflict_id, conflict) ∈ db ∧ conflict.user_id = user_id ∧
          conflict.word_text_search = pyLower schema.word_text) ∧
    ((∀ p ∈ db, p.2.user_id = user2 → p.2.word_text_search ≠ pyLower schema.word_text) →
        match WordService.create_word_for_user db user2 schema fresh_id with
        | .ok (created_id, db3) =>
            created_id = fresh_id ∧
            Store.get db3 fresh_id = some
              { user_id := user2
                word_text := schema.word_text
                word_text_search := pyLower schema.word_text
                word_stars := some 0
                descriptions :=
                  [{ description_text := schema.description_text, is_initial := true,
                     user_id := user2 }]
                examples :=
                  [{ example_text := schema.example_text, is_initial := true,
                     user_id := user2 }] }
        | .error _ => False) := by
  constructor
  · intro cid w hmem howner hsearch
    cases hfind : List.find?
        (fun p => p.2.user_id == user_id && p.2.word_text_search == pyLower schema.word_text)
        db with
    | none =>
        exfalso
        rw [List.find?_eq_none] at hfind
        exact hfind (cid, w) hmem (by simp [howner, hsearch])
    | some p =>
        refine ⟨p.1, p.2, ?_, ?_, ?_, ?_⟩
        · unfold WordService.create_word_for_user WordDal.find_word_by_text_for_user
          rw [hfind]
          rfl
        · exact List.mem_of_find?_eq_some hfind
        · have := List.find?_some hfind
          simp only [Bool.and_eq_true, beq_iff_eq] at this
          exact this.1
        · have := List.find?_some hfind
          simp only [Bool.and_eq_true, beq_iff_eq] at this
          exact this.2
  · intro hnone
    have hfind : List.find?
        (fun p => p.2.user_id == user2 && p.2.word_text_search == pyLower schema.word_text)
        db = none := by
      rw [List.find?_eq_none]
      intro p hp
      simp only [Bool.and_eq_true, beq_iff_eq, not_and]
      intro hu hs
      exact hnone p hp hu hs
    unfold WordService.create_word_for_user WordDal.find_word_by_text_for_user
    rw [hfind]
    simp only [Option.map_none']
    unfold WordDal.append_description_to_word_db WordDal.append_example_to_word_db
      WordDal.add_word_to_db
    rw [Store.get_set_self]
    rw [Store.get_set_self]
    refine ⟨trivial, ?_⟩
    rw [Store.get_set_self]
    simp [WordFactory.create_from_schema, WordFactory.create_description_from_schema,
      WordFactory.create_example_from_schema]

/-- C3 witness: user `u1` owns "Apple" (search key "apple"); creating
"apple" for `u1` fails with `DuplicateEntry` carrying a conflicting id,
while creating it for `u2` succeeds. -/
theorem word_create_duplicate_rule_witness :
    (∃ (conflict_id : String) (conflict : WordDoc),
        WordService.create_word_for_user
            [("w1", { user_id := "u1", word_text := "Apple", word_text_search := "apple",
                      word_stars := some 0, descriptions := [], examples := [] })]
            "u1" { word_text := "apple", description_text := "d", example_text := "e" }
            "w2" =
          .error (.duplicateEntry
            ("Word \x27apple\x27 already exists in your list. Try adding a star to the existing entry instead?")
            (some conflict_id)) ∧
        (conflict_id, conflict) ∈
          [("w1", { user_id := "u1", word_text := "Apple", word_text_search := "apple",
                    word_stars := some 0, descriptions := [], examples := [] })] ∧
        conflict.user_id = "u1" ∧ conflict.word_text_search = pyLower "apple") ∧
    (match WordService.create_word_for_user
        [("w1", { user_id := "u1", word_text := "Apple", word_text_search := "apple",
                  word_stars := some 0, descriptions := [], examples := [] })]
        "u2" { word_text := "apple", description_text := "d", example_text := "e" }
        "w2" with
      | .ok (created_id, db3) =>
          created_id = "w2" ∧
          Store.get db3 "w2" = some
            { user_id := "u2"
              word_text := "apple"
              word_text_search := pyLower "apple"
              word_stars := some 0
              descriptions :=
                [{ description_text := "d", is_initial := true, user_id := "u2" }]
              examples := [{ example_text := "e", is_initial := true, user_id := "u2" }] }
      | .error _ => False) := by
  have h := word_create_duplicate_rule
    [("w1", { user_id := "u1", word_text := "Apple", word_text_search := "apple",
              word_stars := some 0, descriptions := [], examples := [] })]
    "u1" "u2" { word_text := "apple", description_text := "d", example_text := "e" } "w2"
  refine ⟨?_, h.2 (by decide)⟩
  exact h.1 "w1"
    { user_id := "u1", word_text := "Apple", word_text_search := "apple",
      word_stars := some 0, descriptions := [], examples := [] }
    (by decide) rfl (by decide)

/-- C4 counterexample: creating "Science" then "SCIENCE" for the same
user fails, but the failure carries the `CategoryServiceError` kind (an
internal service error, rewrapped by the blanket exception handler into
the generic message), not `DuplicateEntry`. -/
theorem category_duplicate_error_kind_counterexample :
    CategoryService.create_category [] "u1"
        { category_name := "Science", category_color := "#FFFFFF" } "c1" =
      .ok ({ user_id := "u1", category_name := "Science",
             category_name_search := "science", category_color := "#FFFFFF" },
           [("c1", { user_id := "u1", category_name := "Science",
                     category_name_search := "science", category_color := "#FFFFFF" })]) ∧
    CategoryService.create_category
        [("c1", { user_id := "u1", category_name := "Science",
                  category_name_search := "science", category_color := "#FFFFFF" })]
        "u1" { category_name := "SCIENCE", category_color := "#FFFFFF" } "c2" =
      .error (.categoryServiceError
        "An unexpected error occurred while creating the category.") ∧
    Err.isDuplicateEntry
        (.categoryServiceError
          "An unexpected error occurred while creating the category.") = false :=
  ⟨rfl, rfl, rfl⟩

/-- C4 (amended): creating a category whose name case-insensitively
equals an existing category of the same user fails, but the failure is
reported as a `CategoryServiceError` (the service raises its internal
error class for this precondition violation, and its blanket handler
rewraps it with a generic message), not as `DuplicateEntry`; creating the
same name for a different user succeeds. -/
theorem category_duplicate_fails_with_service_error (db : CatStore)
    (user_id user2 : String) (schema : CategoryCreateSchema) (fresh_id : String) :
    (∀ (cid : String) (c : CategoryDoc), (cid, c) ∈ db → c.user_id = user_id →
        pyLower c.category_name = pyLower (pyStrip schema.category_name) →
        CategoryService.create_category db user_id schema fresh_id =
          .error (.categoryServiceError
            "An unexpected error occurred while creating the category.")) ∧
    ((∀ p ∈ db, p.2.user_id = user2 →
          pyLower p.2.category_name ≠ pyLower (pyStrip schema.category_name)) →
        ∀ validated_color : String,
          CategoryFactory.validate_color_format schema.category_color =
            .ok validated_color →
          CategoryService.create_category db user2 schema fresh_id =
            .ok ({ user_id := user2
                   category_name := pyStrip schema.category_name
                   category_name_search := pyLower (pyStrip schema.category_name)
                   category_color := validated_color },
                 Store.set db fresh_id
                   { user_id := user2
                     category_name := pyStrip schema.category_name
                     category_name_search := pyLower (pyStrip schema.category_name)
                     category_color := validated_color })) := by
  constructor
  · intro cid c hmem howner hname
    have hany : (CategoryDal.get_categories_by_user db user_id).any
        (fun existing_category =>
          pyLower existing_category.2.category_name ==
            pyLower (pyStrip schema.category_name)) = true := by
      rw [List.any_eq_true]
      refine ⟨(cid, c), ?_, ?_⟩
      · unfold CategoryDal.get_categories_by_user
        rw [List.mem_filter]
        exact ⟨hmem, by simp [howner]⟩
      · simp [hname]
    unfold CategoryService.create_category CategoryService.create_category_inner
    simp only [hany]
    rfl
  · intro hnone validated_color hcolor
    have hany : (CategoryDal.get_categories_by_user db user2).any
        (fun existing_category =>
          pyLower existing_category.2.category_name ==
            pyLower (pyStrip schema.category_name)) = false := by
      rw [List.any_eq_false]
      intro p hp
      unfold CategoryDal.get_categories_by_user at hp
      rw [List.mem_filter] at hp
      simp only [beq_iff_eq] at hp ⊢
      exact hnone p hp.1 hp.2
    unfold CategoryService.create_category CategoryService.create_category_inner
      CategoryFactory.create_from_schema
    simp only [hany, hcolor, CategoryFactory.normalize_category_name]
    rfl

/-- C4 witness: with "Science" stored for `u1`, creating "SCIENCE" for
`u1` fails with the `CategoryServiceError` kind, and creating "SCIENCE"
for `u2` succeeds. -/
theorem category_duplicate_fails_with_service_error_witness :
    CategoryService.create_category
        [("c1", { user_id := "u1", category_name := "Science",
                  category_name_search := "science", category_color := "#FFFFFF" })]
        "u1" { category_name := "SCIENCE", category_color := "#000000" } "c2" =
      .error (.categoryServiceError
        "An unexpected error occurred while creating the category.") ∧
    CategoryService.create_category
        [("c1", { user_id := "u1", category_name := "Science",
                  category_name_search := "science", category_color := "#FFFFFF" })]
        "u2" { category_name := "SCIENCE", category_color := "#000000" } "c2" =
      .ok ({ user_id := "u2", category_name := "SCIENCE",
             category_name_search := "science", category_color := "#000000" },
           Store.set
             [("c1", { user_id := "u1", category_name := "Science",
                       category_name_search := "science", category_color := "#FFFFFF" })]
             "c2"
             { user_id := "u2", category_name := "SCIENCE",
               category_name_search := "science", category_color := "#000000" }) := by
  have h := category_duplicate_fails_with_service_error
    [("c1", { user_id := "u1", category_name := "Science",
              category_name_search := "science", category_color := "#FFFFFF" })]
    "u1" "u2" { category_name := "SCIENCE", category_color := "#000000" } "c2"
  constructor
  · exact h.1 "c1"
      { user_id := "u1", category_name := "Science",
        category_name_search := "science", category_color := "#FFFFFF" }
      (by decide) rfl (by decide)
  · exact (h.2 (by decide) "#000000" rfl).trans rfl

/-- C5 (code bug evidence): for words, an absent id and an existing but
non-owned id fail with the identical `NotFound` error; for categories the
`try:` body of `get_category_by_id` raises the identical `NotFound` in
both cases as well, but the service's blanket `except Exception` handler
swallows it, so the caller receives `CategoryServiceError` — not
`NotFound` — for both an absent and a non-owned category. -/
theorem category_get_not_found_swallowed :
    WordService.get_word_details_for_user [] "u2" "w1" =
      .error (.notFound "Word with ID \x27w1\x27 not found.") ∧
    WordService.get_word_details_for_user
        [("w1", { user_id := "u1", word_text := "cat", word_text_search := "cat",
                  word_stars := some 0, descriptions := [], examples := [] })]
        "u2" "w1" =
      .error (.notFound "Word with ID \x27w1\x27 not found.") ∧
    CategoryService.get_category_by_id_inner [] "c1" "u2" =
      .error (.notFound "Category with ID \x27c1\x27 not found.") ∧
    CategoryService.get_category_by_id_inner
        [("c1", { user_id := "u1", category_name := "Science",
                  category_name_search := "science", category_color := "#FFFFFF" })]
        "c1" "u2" =
      .error (.notFound "Category with ID \x27c1\x27 not found.") ∧
    CategoryService.get_category_by_id [] "c1" "u2" =
      .error (.categoryServiceError
        "An unexpected error occurred while retrieving the category.") ∧
    CategoryService.get_category_by_id
        [("c1", { user_id := "u1", category_name := "Science",
                  category_name_search := "science", category_color := "#FFFFFF" })]
        "c1" "u2" =
      .error (.categoryServiceError
        "An unexpected error occurred while retrieving the category.") ∧
    Err.isNotFound
        (.categoryServiceError
          "An unexpected error occurred while retrieving the category.") = false :=
  ⟨rfl, rfl, rfl, rfl, rfl, rfl, rfl⟩

/-- C6: `link(ownerId, categoryId, wordId)` fails with `NotFound` when the
caller does not own the word, and — word check passing — with `NotFound`
when the caller does not own the category (two independent checks); it
fails with `DuplicateEntry` when the composite-id link document
`wordId_categoryId` already exists; otherwise it creates exactly that
document; and unlinking an absent link fails with `NotFound`. -/
theorem link_unlink_rules (db : AppDb) (user_id category_id word_id : String) :
    ((∀ w : WordDoc, WordDal.get_word_by_id db.words word_id = some w →
          w.user_id ≠ user_id) →
        WordCategoryService.add_word_to_category db user_id category_id word_id =
          .error (.notFound "Word not found or access is forbidden.")) ∧
    (∀ w : WordDoc, WordDal.get_word_by_id db.words word_id = some w →
        w.user_id = user_id →
        (∀ c : CategoryDoc,
            CategoryDal.get_category_by_id db.categories category_id = some c →
            c.user_id ≠ user_id) →
        WordCategoryService.add_word_to_category db user_id category_id word_id =
          .error (.notFound "Category not found or access is forbidden.")) ∧
    (∀ (w : WordDoc) (c : CategoryDoc),
        WordDal.get_word_by_id db.words word_id = some w → w.user_id = user_id →
        CategoryDal.get_category_by_id db.categories category_id = some c →
        c.user_id = user_id →
        WordCategoryDal.check_link_exists db.word_categories word_id category_id = true →
        WordCategoryService.add_word_to_category db user_id category_id word_id =
          .error (.duplicateEntry "Word is already in this category." none)) ∧
    (∀ (w : WordDoc) (c : CategoryDoc),
        WordDal.get_word_by_id db.words word_id = some w → w.user_id = user_id →
        CategoryDal.get_category_by_id db.categories category_id = some c →
        c.user_id = user_id →
        WordCategoryDal.check_link_exists db.word_categories word_id category_id = false →
        WordCategoryService.add_word_to_category db user_id category_id word_id =
          .ok { db with
            word_categories :=
              WordCategoryDal.link_word_to_category db.word_categories
                user_id word_id category_id } ∧
        Store.get
            (WordCategoryDal.link_word_to_category db.word_categories
              user_id word_id category_id)
            (word_id ++ "_" ++ category_id) =
          some { word_id := word_id, category_id := category_id, user_id := user_id }) ∧
    (∀ (w : WordDoc) (c : CategoryDoc),
        WordDal.get_word_by_id db.words word_id = some w → w.user_id = user_id →
        CategoryDal.get_category_by_id db.categories category_id = some c →
        c.user_id = user_id →
        WordCategoryDal.check_link_exists db.word_categories word_id category_id = false →
        WordCategoryService.remove_word_from_category db user_id category_id word_id =
          .error (.notFound "This word is not in the specified category.")) := by
  refine ⟨?_, ?_, ?_, ?_, ?_⟩
  · intro hw
    unfold WordCategoryService.add_word_to_category
    cases hget : WordDal.get_word_by_id db.words word_id with
    | none => rfl
    | some w =>
        have := hw w hget
        simp [bne_iff_ne, this]
  · intro w hget howner hc
    unfold WordCategoryService.add_word_to_category
    rw [hget]
    simp only [howner, bne_self_eq_false, Bool.false_eq_true, if_false]
    cases hcat : CategoryDal.get_category_by_id db.categories category_id with
    | none => rfl
    | some c =>
        have := hc c hcat
        simp [bne_iff_ne, this]
  · intro w c hget howner hcat hcowner hlink
    unfold WordCategoryService.add_word_to_category
    rw [hget, hcat]
    simp [howner, hcowner, hlink]
  · intro w c hget howner hcat hcowner hlink
    refine ⟨?_, ?_⟩
    · unfold WordCategoryService.add_word_to_category
      rw [hget, hcat]
      simp [howner, hcowner, hlink]
    · exact Store.get_set_self db.word_categories _ _
  · intro w c hget howner hcat hcowner hlink
    unfold WordCategoryService.remove_word_from_category
    rw [hget, hcat]
    simp [howner, hcowner, hlink]

/-- C6 witness: with a word and a category both owned by `u1` and no
existing link, linking succeeds and stores the composite-id document
`w1_c1`. -/
theorem link_unlink_rules_witness :
    WordCategoryService.add_word_to_category
        { words := [("w1", { user_id := "u1", word_text := "cat",
                             word_text_search := "cat", word_stars := some 0,
                             descriptions := [], examples := [] })]
          categories := [("c1", { user_id := "u1", category_name := "Science",
                                  category_name_search := "science",
                                  category_color := "#FFFFFF" })]
          word_categories := [] }
        "u1" "c1" "w1" =
      .ok
        { words := [("w1", { user_id := "u1", word_text := "cat",
                             word_text_search := "cat", word_stars := some 0,
                             descriptions := [], examples := [] })]
          categories := [("c1", { user_id := "u1", category_name := "Science",
                                  category_name_search := "science",
                                  category_color := "#FFFFFF" })]
          word_categories :=
            [("w1_c1", { word_id := "w1", category_id := "c1", user_id := "u1" })] } ∧
    Store.get
        [("w1_c1", { word_id := "w1", category_id := "c1", user_id := "u1" : LinkDoc })]
        "w1_c1" =
      some { word_id := "w1", category_id := "c1", user_id := "u1" } := by
  have h :=
    (link_unlink_rules
        { words := [("w1", { user_id := "u1", word_text := "cat",
                             word_text_search := "cat", word_stars := some 0,
                             descriptions := [], examples := [] })]
          categories := [("c1", { user_id := "u1", category_name := "Science",
                                  category_name_search := "science",
                                  category_color := "#FFFFFF" })]
          word_categories := [] }
        "u1" "c1" "w1").2.2.2.1
      { user_id := "u1", word_text := "cat", word_text_search := "cat",
        word_stars := some 0, descriptions := [], examples := [] }
      { user_id := "u1", category_name := "Science",
        category_name_search := "science", category_color := "#FFFFFF" }
      rfl rfl rfl rfl rfl
  exact ⟨h.1.trans rfl, h.2.trans rfl⟩

/-! ### Search-key synchronization (C7) -/

/-- Every stored word document's lowercase search key equals the
lowercase of its display text. -/
def WordSearchSync (db : WordsStore) : Prop :=
  ∀ p ∈ db, p.2.word_text_search = pyLower p.2.word_text

/-- Every stored category document's lowercase search key equals the
lowercase of its display name. -/
def CatSearchSync (db : CatStore) : Prop :=
  ∀ p ∈ db, p.2.category_name_search = pyLower p.2.category_name

theorem word_sync_set {db : WordsStore} {k : String} {v : WordDoc}
    (hdb : WordSearchSync db) (hv : v.word_text_search = pyLower v.word_text) :
    WordSearchSync (Store.set db k v) := by
  intro p hp
  rcases Store.mem_set hp with h | h
  · rw [h]; exact hv
  · exact hdb p h

theorem cat_sync_set {db : CatStore} {k : String} {v : CategoryDoc}
    (hdb : CatSearchSync db)
    (hv : v.category_name_search = pyLower v.category_name) :
    CatSearchSync (Store.set db k v) := by
  intro p hp
  rcases Store.mem_set hp with h | h
  · rw [h]; exact hv
  · exact hdb p h

theorem word_sync_append_desc {db : WordsStore} {wid : String} {d : DescriptionDoc}
    (h : WordSearchSync db) :
    WordSearchSync (WordDal.append_description_to_word_db db wid d) := by
  unfold WordDal.append_description_to_word_db
  cases hget : Store.get db wid with
  | none => exact h
  | some w => exact word_sync_set h (h (wid, w) (Store.get_eq_some_mem hget))

theorem word_sync_append_example {db : WordsStore} {wid : String} {e : ExampleDoc}
    (h : WordSearchSync db) :
    WordSearchSync (WordDal.append_example_to_word_db db wid e) := by
  unfold WordDal.append_example_to_word_db
  cases hget : Store.get db wid with
  | none => exact h
  | some w => exact word_sync_set h (h (wid, w) (Store.get_eq_some_mem hget))

theorem category_update_dict_search_key {schema : CategoryUpdateSchema}
    {u : Option (String × String) × Option String}
    (h : CategoryFactory.create_update_dict schema = .ok u) :
    ∀ n s : String, u.1 = some (n, s) → s = pyLower n := by
  rcases schema with ⟨cn, cc⟩
  unfold CategoryFactory.create_update_dict at h
  cases cc with
  | none =>
      cases cn with
      | none =>
          cases h
          intro n s hns
          cases hns
      | some nm =>
          cases h
          intro n s hns
          cases hns
          rfl
  | some c =>
      cases hv : CategoryFactory.validate_color_format c with
      | error e =>
          rw [show ({ category_name := cn, category_color := some c } :
              CategoryUpdateSchema).category_color = some c from rfl] at h
          simp only [hv] at h
          cases h
      | ok v =>
          simp only [hv] at h
          cases cn with
          | none =>
              cases h
              intro n s hns
              cases hns
          | some nm =>
              cases h
              intro n s hns
              cases hns
              rfl

/-- C7: every create and every text/name update keeps the stored
lowercase search key equal to the lowercase of the stored display text:
word creation, word text update, category creation and category update
each write the recomputed search key in the same write, so the
synchronization invariant is preserved across the whole store. -/
theorem search_keys_always_in_sync :
    (∀ (db : WordsStore) (user_id : String) (schema : WordCreateSchema)
        (fresh_id : String) (r : String × WordsStore),
        WordSearchSync db →
        WordService.create_word_for_user db user_id schema fresh_id = .ok r →
        WordSearchSync r.2) ∧
    (∀ (db : WordsStore) (word_id new_text : String) (db2 : WordsStore),
        WordSearchSync db →
        WordDal.update_word_by_id db word_id new_text = .ok db2 →
        WordSearchSync db2) ∧
    (∀ (db : CatStore) (user_id : String) (schema : CategoryCreateSchema)
        (fresh_id : String) (r : CategoryDoc × CatStore),
        CatSearchSync db →
        CategoryService.create_category db user_id schema fresh_id = .ok r →
        CatSearchSync r.2) ∧
    (∀ (db : CatStore) (category_id user_id : String) (schema : CategoryUpdateSchema)
        (r : CategoryDoc × CatStore),
        CatSearchSync db →
        CategoryService.update_category db category_id user_id schema = .ok r →
        CatSearchSync r.2) := by
  refine ⟨?_, ?_, ?_, ?_⟩
  · intro db user_id schema fresh_id r hsync hok
    unfold WordService.create_word_for_user at hok
    cases hfind : WordDal.find_word_by_text_for_user db user_id schema.word_text with
    | some cid => rw [hfind] at hok; cases hok
    | none =>
        rw [hfind] at hok
        simp only [Except.ok.injEq] at hok
        rw [← hok]
        apply word_sync_append_example
        apply word_sync_append_desc
        exact word_sync_set hsync rfl
  · intro db word_id new_text db2 hsync hok
    unfold WordDal.update_word_by_id at hok
    cases hget : Store.get db word_id with
    | none => rw [hget] at hok; cases hok
    | some w =>
        rw [hget] at hok
        simp only [Except.ok.injEq] at hok
        rw [← hok]
        exact word_sync_set hsync rfl
  · intro db user_id schema fresh_id r hsync hok
    unfold CategoryService.create_category CategoryService.create_category_inner at hok
    by_cases hany :
        ((CategoryDal.get_categories_by_user db user_id).any
          (fun existing_category =>
            pyLower existing_category.2.category_name ==
              pyLower (pyStrip schema.category_name))) = true
    · simp only [hany, if_true] at hok
      cases hok
    · rw [Bool.not_eq_true] at hany
      simp only [hany, Bool.false_eq_true, if_false] at hok
      unfold CategoryFactory.create_from_schema at hok
      cases hcol : CategoryFactory.validate_color_format schema.category_color with
      | error e => rw [hcol] at hok; cases e <;> simp at hok
      | ok v =>
          rw [hcol] at hok
          simp only [Except.ok.injEq] at hok
          rw [← hok]
          exact cat_sync_set hsync rfl
  · intro db category_id user_id schema r hsync hok
    unfold CategoryService.update_category at hok
    cases hget : CategoryService.get_category_by_id db category_id user_id with
    | error e => rw [hget] at hok; cases hok
    | ok existing =>
        rw [hget] at hok
        cases hupd : CategoryFactory.create_update_dict schema with
        | error e => rw [hupd] at hok; cases hok
        | ok updates =>
            rw [hupd] at hok
            by_cases hempty : (updates.1.isNone && updates.2.isNone) = true
            · simp only [hempty, if_true] at hok
              simp only [Except.ok.injEq] at hok
              rw [← hok]
              exact hsync
            · rw [Bool.not_eq_true] at hempty
              simp only [hempty, Bool.false_eq_true, if_false] at hok
              by_cases hdup : (match updates.1 with
                  | none => false
                  | some (n, _) =>
                      if pyLower n != pyLower existing.category_name then
                        (CategoryDal.get_categories_by_user db user_id).any
                          (fun category =>
                            category.1 != category_id &&
                              pyLower category.2.category_name == pyLower n)
                      else false) = true
              · simp only [hdup, if_true] at hok
                cases hok
              · rw [Bool.not_eq_true] at hdup
                simp only [hdup, Bool.false_eq_true, if_false] at hok
                unfold CategoryDal.update_category at hok
                cases hget2 : Store.get db category_id with
                | none => rw [hget2] at hok; cases hok
                | some c =>
                    rw [hget2] at hok
                    simp only [Except.ok.injEq] at hok
                    rw [← hok]
                    apply cat_sync_set hsync
                    cases hn : updates.1 with
                    | none =>
                        cases hc : updates.2 with
                        | none =>
                            simp only [hn, hc]
                            exact hsync (category_id, c) (Store.get_eq_some_mem hget2)
                        | some col =>
                            simp only [hn, hc]
                            exact hsync (category_id, c) (Store.get_eq_some_mem hget2)
                    | some ns =>
                        rcases ns with ⟨n, s⟩
                        have hs := category_update_dict_search_key hupd n s hn
                        cases hc : updates.2 with
                        | none => simp only [hn, hc]; exact hs
                        | some col => simp only [hn, hc]; exact hs

/-- C7 witness: updating the concrete word "Cat" to "DOG" writes the
recomputed search key "dog" in the same write, keeping the store in sync. -/
theorem search_keys_always_in_sync_witness :
    WordSearchSync
      [("w1", { user_id := "u1", word_text := "DOG", word_text_search := "dog",
                word_stars := some 0, descriptions := [], examples := [] })] :=
  search_keys_always_in_sync.2.1
    [("w1", { user_id := "u1", word_text := "Cat", word_text_search := "cat",
              word_stars := some 0, descriptions := [], examples := [] })]
    "w1" "DOG"
    [("w1", { user_id := "u1", word_text := "DOG", word_text_search := "dog",
              word_stars := some 0, descriptions := [], examples := [] })]
    (by intro p hp; rw [List.mem_singleton] at hp; subst hp; rfl) rfl

/-! ### Admin-student exclusivity lemmas (C2) -/

namespace AdminService

theorem studentLinkCount_filter_le (links : Store ALink) (q : String × ALink → Bool)
    (s : String) :
    studentLinkCount (List.filter q links) s ≤ studentLinkCount links s := by
  unfold studentLinkCount
  exact ((List.filter_sublist links).filter _).length_le

theorem assign_ok_shape {st : AdminState} {a s : String} {st2 : AdminState}
    (h : assign_student_to_admin st a s = .ok st2) :
    AdminStudentDal.get_link_by_student_id st.links s = none ∧
    st2 = { st with links := AdminStudentDal.create_link st.links a s } := by
  unfold assign_student_to_admin at h
  cases hu : AdminStudentDal.get_user_by_id st.users s with
  | none => rw [hu] at h; cases h
  | some student =>
      rw [hu] at h
      by_cases hadm : st.adminIds.contains s = true
      · simp only [hadm, if_true] at h
        cases h
      · rw [Bool.not_eq_true] at hadm
        simp only [hadm, Bool.false_eq_true, if_false] at h
        cases hl : AdminStudentDal.get_link_by_student_id st.links s with
        | some L =>
            rw [hl] at h
            by_cases hA : (L.admin_id == a) = true
            · simp only [hA, if_true] at h; cases h
            · rw [Bool.not_eq_true] at hA
              simp only [hA, Bool.false_eq_true, if_false] at h
              cases h
        | none =>
            rw [hl] at h
            cases h
            exact ⟨rfl, rfl⟩

theorem remove_ok_shape {st : AdminState} {a s : String} {st2 : AdminState}
    (h : remove_student_from_admin st a s = .ok st2) :
    st2 = { st with links := AdminStudentDal.remove_link st.links a s } := by
  unfold remove_student_from_admin at h
  cases hl : AdminStudentDal.get_link_by_student_id st.links s with
  | none => rw [hl] at h; cases h
  | some L =>
      rw [hl] at h
      by_cases hA : (L.admin_id != a) = true
      · simp only [hA, if_true] at h; cases h
      · rw [Bool.not_eq_true] at hA
        simp only [hA, Bool.false_eq_true, if_false] at h
        cases h
        rfl

theorem no_link_means_no_member {links : Store ALink} {s : String}
    (h : AdminStudentDal.get_link_by_student_id links s = none) :
    ∀ q ∈ links, (q.2.student_id == s) = false := by
  unfold AdminStudentDal.get_link_by_student_id at h
  rw [Option.map_eq_none'] at h
  rw [List.find?_eq_none] at h
  intro q hq
  have := h q hq
  simpa using this

theorem create_link_preserves_inv {st : AdminState} {a s : String}
    (hwf : WFLinks st) (hex : StudentExclusive st)
    (hnone : AdminStudentDal.get_link_by_student_id st.links s = none) :
    WFLinks { st with links := AdminStudentDal.create_link st.links a s } ∧
    StudentExclusive { st with links := AdminStudentDal.create_link st.links a s } := by
  constructor
  · intro p hp
    rcases Store.mem_set hp with h | h
    · rw [h]
    · exact hwf p h
  · intro t
    show studentLinkCount (AdminStudentDal.create_link st.links a s) t ≤ 1
    unfold AdminStudentDal.create_link Store.set studentLinkCount
    by_cases hts : (s == t) = true
    · rw [List.filter_cons_of_pos (by simpa using hts)]
      have hzero :
          List.filter (fun p => p.2.student_id == t)
            (List.filter (fun p => p.1 != a ++ "_" ++ s) st.links) = [] := by
        rw [List.filter_eq_nil_iff]
        intro q hq
        have hq2 := no_link_means_no_member hnone q (List.mem_of_mem_filter hq)
        rw [beq_iff_eq] at hts
        subst hts
        simp [hq2]
      rw [hzero]
      simp
    · rw [List.filter_cons_of_neg (by simpa using hts)]
      calc (List.filter (fun p => p.2.student_id == t)
              (List.filter (fun p => p.1 != a ++ "_" ++ s) st.links)).length
          ≤ studentLinkCount st.links t := studentLinkCount_filter_le st.links _ t
        _ ≤ 1 := hex t

theorem remove_link_preserves_inv {st : AdminState} {a s : String}
    (hwf : WFLinks st) (hex : StudentExclusive st) :
    WFLinks { st with links := AdminStudentDal.remove_link st.links a s } ∧
    StudentExclusive { st with links := AdminStudentDal.remove_link st.links a s } := by
  unfold AdminStudentDal.remove_link
  by_cases hs : (Store.get st.links (a ++ "_" ++ s)).isSome = true
  · simp only [hs, if_true]
    constructor
    · intro p hp
      exact hwf p (List.mem_of_mem_filter hp)
    · intro t
      calc studentLinkCount (Store.del st.links (a ++ "_" ++ s)) t
          ≤ studentLinkCount st.links t := studentLinkCount_filter_le st.links _ t
        _ ≤ 1 := hex t
  · rw [Bool.not_eq_true] at hs
    simp only [hs, Bool.false_eq_true, if_false]
    exact ⟨hwf, hex⟩

theorem applyOp_preserves_inv (st : AdminState) (op : AdminOp)
    (hwf : WFLinks st) (hex : StudentExclusive st) :
    WFLinks (applyOp st op) ∧ StudentExclusive (applyOp st op) := by
  cases op with
  | assign a s =>
      unfold applyOp
      dsimp only
      cases hres : assign_student_to_admin st a s with
      | error e => simp only [hres]; exact ⟨hwf, hex⟩
      | ok st2 =>
          simp only [hres]
          rcases assign_ok_shape hres with ⟨hnone, hshape⟩
          rw [hshape]
          exact create_link_preserves_inv hwf hex hnone
  | remove a s =>
      unfold applyOp
      dsimp only
      cases hres : remove_student_from_admin st a s with
      | error e => simp only [hres]; exact ⟨hwf, hex⟩
      | ok st2 =>
          simp only [hres]
          rw [remove_ok_shape hres]
          exact remove_link_preserves_inv hwf hex

theorem runOps_preserves_inv (ops : List AdminOp) (st : AdminState)
    (hwf : WFLinks st) (hex : StudentExclusive st) :
    WFLinks (runOps st ops) ∧ StudentExclusive (runOps st ops) := by
  induction ops generalizing st with
  | nil => exact ⟨hwf, hex⟩
  | cons op ops ih =>
      have h := applyOp_preserves_inv st op hwf hex
      exact ih (applyOp st op) h.1 h.2

theorem no_link_after_remove {links : Store ALink} {a1 s : String} {L : ALink}
    (hwf : ∀ p ∈ links, p.1 = p.2.admin_id ++ "_" ++ p.2.student_id)
    (hex : studentLinkCount links s ≤ 1)
    (hl : AdminStudentDal.get_link_by_student_id links s = some L)
    (hLa : L.admin_id = a1) :
    AdminStudentDal.get_link_by_student_id
      (AdminStudentDal.remove_link links a1 s) s = none := by
  unfold AdminStudentDal.get_link_by_student_id at hl
  rcases Option.map_eq_some'.mp hl with ⟨p, hfind, hpL⟩
  have hpmem := List.mem_of_find?_eq_some hfind
  have hps := List.find?_some hfind
  simp only [beq_iff_eq] at hps
  have hLs : L.student_id = s := by rw [← hpL]; exact hps
  have hpkey : p.1 = a1 ++ "_" ++ s := by
    rw [hwf p hpmem, hpL, hLa, hLs]
  have hsome : (Store.get links (a1 ++ "_" ++ s)).isSome = true := by
    rw [← hpkey]
    exact Store.get_isSome_of_mem hpmem
  unfold AdminStudentDal.remove_link
  simp only [hsome, if_true]
  unfold AdminStudentDal.get_link_by_student_id
  rw [Option.map_eq_none']
  rw [List.find?_eq_none]
  intro q hq
  rcases List.mem_filter.mp hq with ⟨hqmem, hqkey⟩
  intro hqs
  have hqs' : (q.2.student_id == s) = true := by simpa using hqs
  have hq_in : q ∈ List.filter (fun p => p.2.student_id == s) links :=
    List.mem_filter.mpr ⟨hqmem, hqs'⟩
  have hp_in : p ∈ List.filter (fun p => p.2.student_id == s) links :=
    List.mem_filter.mpr ⟨hpmem, by simp [hps]⟩
  have : q = p := list_length_le_one_mem_eq hex hq_in hp_in
  rw [this, hpkey] at hqkey
  simp at hqkey

end AdminService

/-- C2: a student id appears in at most one admin-student link at any
time: the exclusivity invariant (together with the composite-id layout
invariant) is preserved by every sequence of assign/remove operations;
while a link for S exists, `assignStudent(A2, S)` fails with
`DuplicateEntry` — the "already assigned to you" message when the link
points at A2, the "already assigned to another admin" message otherwise;
`removeStudent(A, S)` fails with `NotFound` unless the existing link
belongs to A; and after A1 removes S, a subsequent
`assignStudent(A2, S)` succeeds. -/
theorem admin_student_exclusivity :
    (∀ (st : AdminState) (ops : List AdminService.AdminOp),
        AdminService.WFLinks st → AdminService.StudentExclusive st →
        AdminService.WFLinks (AdminService.runOps st ops) ∧
        AdminService.StudentExclusive (AdminService.runOps st ops)) ∧
    (∀ (st : AdminState) (a2 s : String) (student : UserRec) (L : ALink),
        AdminStudentDal.get_user_by_id st.users s = some student →
        st.adminIds.contains s = false →
        AdminStudentDal.get_link_by_student_id st.links s = some L →
        (L.admin_id = a2 →
          AdminService.assign_student_to_admin st a2 s =
            .error (.duplicateEntry
              ("User \x27" ++ student.user_name ++ "\x27 is already assigned to you.")
              none)) ∧
        (L.admin_id ≠ a2 →
          AdminService.assign_student_to_admin st a2 s =
            .error (.duplicateEntry
              ("User \x27" ++ student.user_name ++
                "\x27 is already assigned to another admin.")
              none))) ∧
    (∀ (st : AdminState) (a s : String),
        (∀ L : ALink,
            AdminStudentDal.get_link_by_student_id st.links s = some L →
            L.admin_id ≠ a) →
        AdminService.remove_student_from_admin st a s =
          .error (.notFound "This student is not assigned to you.")) ∧
    (∀ (st : AdminState) (a1 a2 s : String) (student : UserRec) (L : ALink),
        AdminService.WFLinks st → AdminService.StudentExclusive st →
        AdminStudentDal.get_user_by_id st.users s = some student →
        st.adminIds.contains s = false →
        AdminStudentDal.get_link_by_student_id st.links s = some L →
        L.admin_id = a1 →
        AdminService.remove_student_from_admin st a1 s =
          .ok { st with links := AdminStudentDal.remove_link st.links a1 s } ∧
        AdminService.assign_student_to_admin
            { st with links := AdminStudentDal.remove_link st.links a1 s } a2 s =
          .ok { st with links := AdminStudentDal.create_link (AdminStudentDal.remove_link st.links a1 s) a2 s }) := by
  refine ⟨?_, ?_, ?_, ?_⟩
  · intro st ops hwf hex
    exact AdminService.runOps_preserves_inv ops st hwf hex
  · intro st a2 s student L hu hadm hl
    constructor
    · intro hLa
      unfold AdminService.assign_student_to_admin
      rw [hu, hl]
      simp only [hadm, Bool.false_eq_true, if_false]
      simp [hLa]
    · intro hLa
      unfold AdminService.assign_student_to_admin
      rw [hu, hl]
      simp only [hadm, Bool.false_eq_true, if_false]
      simp [hLa]
  · intro st a s h
    unfold AdminService.remove_student_from_admin
    cases hl : AdminStudentDal.get_link_by_student_id st.links s with
    | none => rfl
    | some L =>
        have := h L hl
        simp [bne_iff_ne, this]
  · intro st a1 a2 s student L hwf hex hu hadm hl hLa
    constructor
    · unfold AdminService.remove_student_from_admin
      rw [hl]
      simp [hLa]
    · have hnone :=
        AdminService.no_link_after_remove (hwf) (hex s) hl hLa
      unfold AdminService.assign_student_to_admin
      dsimp only
      rw [hu]
      simp only [hadm, Bool.false_eq_true, if_false]
      rw [hnone]

/-- C2 witness: with student "s1" (a user, not an admin) linked to admin
"a1", assigning "s1" to "a2" fails with the "already assigned to another
admin" duplicate; after "a1" removes "s1", assigning to "a2" succeeds. -/
theorem admin_student_exclusivity_witness :
    AdminService.assign_student_to_admin
        { users := [{ user_id := "s1", user_name := "Sam" }]
          adminIds := ["a1", "a2"]
          links := [("a1_s1", { admin_id := "a1", student_id := "s1" })] }
        "a2" "s1" =
      .error (.duplicateEntry
        "User \x27Sam\x27 is already assigned to another admin." none) ∧
    AdminService.remove_student_from_admin
        { users := [{ user_id := "s1", user_name := "Sam" }]
          adminIds := ["a1", "a2"]
          links := [("a1_s1", { admin_id := "a1", student_id := "s1" })] }
        "a1" "s1" =
      .ok { users := [{ user_id := "s1", user_name := "Sam" }]
            adminIds := ["a1", "a2"]
            links := [] } ∧
    AdminService.assign_student_to_admin
        { users := [{ user_id := "s1", user_name := "Sam" }]
          adminIds := ["a1", "a2"]
          links := [] }
        "a2" "s1" =
      .ok { users := [{ user_id := "s1", user_name := "Sam" }]
            adminIds := ["a1", "a2"]
            links := [("a2_s1", { admin_id := "a2", student_id := "s1" })] } := by
  have h2 := (admin_student_exclusivity.2.1
      { users := [{ user_id := "s1", user_name := "Sam" }]
        adminIds := ["a1", "a2"]
        links := [("a1_s1", { admin_id := "a1", student_id := "s1" })] }
      "a2" "s1" { user_id := "s1", user_name := "Sam" }
      { admin_id := "a1", student_id := "s1" }
      rfl (by decide) rfl).2 (by decide)
  have h4 := admin_student_exclusivity.2.2.2
      { users := [{ user_id := "s1", user_name := "Sam" }]
        adminIds := ["a1", "a2"]
        links := [("a1_s1", { admin_id := "a1", student_id := "s1" })] }
      "a1" "a2" "s1" { user_id := "s1", user_name := "Sam" }
      { admin_id := "a1", student_id := "s1" }
      (by intro p hp; rw [List.mem_singleton] at hp; subst hp; rfl)
      (by
        intro t
        show (List.filter (fun p => p.2.student_id == t)
          [("a1_s1", ({ admin_id := "a1", student_id := "s1" } : ALink))]).length ≤ 1
        simpa using (List.filter_sublist
          [("a1_s1", ({ admin_id := "a1", student_id := "s1" } : ALink))]).length_le)
      rfl (by decide) rfl rfl
  exact ⟨h2, h4.1.trans rfl, h4.2.trans rfl⟩

end InfiniteVocab
